import Mathlib

/-
Verification of the mathviz repository: a shallow embedding of the analysis
module (analysis.py) and of the relevant slices of the command line driver
(main.py), with theorems settling the frozen claims about the
symbolic-then-numeric fallback policy, the classification of critical and
inflection points, expression list splitting, and the error handling of the
plot dispatch.
-/

namespace Mathviz

/-- Model of a Python exception: only the type name is tracked, matching the
use str(type(e).__name__) in analysis.py. -/
structure PyExc where
  name : String
deriving DecidableEq

/-- Interface to the external computer algebra library (SymPy) as the analysis
module uses it: E is the type of symbolic expressions, V the type of values
produced by substituting a root into an expression. Each field models one
library call site; calls that can raise return Except PyExc. -/
structure CAS (E V : Type) where
  freeSymbols : E → List String
  diff : E → String → E
  integrate : E → String → E
  seriesExpand : E → ℚ → ℕ → String → E
  solve : E → String → Except PyExc (List V)
  subs : E → String → V → Except PyExc V
  isReal : V → Bool
  cmpZero : V → Except PyExc Ordering
  neZero : V → Bool

/-- Translation of the default variable lookup shared by the analysis
functions: var = list(expr.free_symbols)[0] raises IndexError when the
expression has no free symbols. -/
def resolveVar {E V : Type} (cas : CAS E V) (e : E) : Option String → Except PyExc String
  | some v => Except.ok v
  | none =>
    match cas.freeSymbols e with
    | [] => Except.error ⟨"IndexError"⟩
    | v :: _ => Except.ok v

/-- Translation of derivative (analysis.py lines 25 to 29). -/
def derivative {E V : Type} (cas : CAS E V) (expr : E) (var? : Option String) :
    Except PyExc E := do
  let var ← resolveVar cas expr var?
  pure (cas.diff expr var)

/-- Translation of integral (analysis.py lines 32 to 36). -/
def integral {E V : Type} (cas : CAS E V) (expr : E) (var? : Option String) :
    Except PyExc E := do
  let var ← resolveVar cas expr var?
  pure (cas.integrate expr var)

/-- Translation of taylor_series (analysis.py lines 39 to 44). -/
def taylor_series {E V : Type} (cas : CAS E V) (expr : E) (x0 : ℚ) (n : ℕ)
    (var? : Option String) : Except PyExc E := do
  let var ← resolveVar cas expr var?
  pure (cas.seriesExpand expr x0 n var)

/-- Classification of one root by the second derivative, translating the
try/except body of the loop in critical_points (analysis.py lines 64 to 78):
a substitution failure gives unknown; a non real value gives complex;
otherwise the sign decides among local min, local max and possible
inflection, and a failing comparison also gives unknown. -/
def classifySecondDeriv {E V : Type} (cas : CAS E V) (f2 : E) (v : String) (s : V) : String :=
  match cas.subs f2 v s with
  | Except.error _ => "unknown"
  | Except.ok val =>
    if cas.isReal val then
      match cas.cmpZero val with
      | Except.ok Ordering.gt => "local min"
      | Except.ok Ordering.lt => "local max"
      | Except.ok Ordering.eq => "possible inflection"
      | Except.error _ => "unknown"
    else "complex"

/-- The sentinel message returned when the solver fails (analysis.py line 60). -/
def unableMsg : String := "(Unable to solve symbolically)"

/-- Translation of critical_points (analysis.py lines 47 to 79): solve the
first derivative equation; on NotImplementedError or ValueError return the
sentinel list; otherwise classify every root by the second derivative. An
entry is either a root (left) or the sentinel string (right), paired with the
classification string. -/
def critical_points {E V : Type} (cas : CAS E V) (expr : E) (var? : Option String) :
    Except PyExc (List ((V ⊕ String) × String)) := do
  let var ← resolveVar cas expr var?
  let f1 := cas.diff expr var
  match cas.solve f1 var with
  | Except.error exc =>
    if exc.name = "NotImplementedError" ∨ exc.name = "ValueError" then
      pure [(Sum.inr unableMsg, exc.name)]
    else
      Except.error exc
  | Except.ok sols =>
    let f2 := cas.diff f1 var
    pure (sols.map fun s => (Sum.inl s, classifySecondDeriv cas f2 var s))

/-- Classification of one root by the third derivative, translating the loop
body of inflection_points (analysis.py lines 96 to 110): a nonzero real value
gives inflection, a zero real value gives possible higher-order, a non real
value gives complex, a substitution failure gives unknown. -/
def classifyThirdDeriv {E V : Type} (cas : CAS E V) (f3 : E) (v : String) (s : V) : String :=
  match cas.subs f3 v s with
  | Except.error _ => "unknown"
  | Except.ok val =>
    if cas.isReal val then
      if cas.neZero val then "inflection" else "possible higher-order"
    else "complex"

/-- Translation of inflection_points (analysis.py lines 82 to 111): solve the
second derivative equation; on NotImplementedError or ValueError return the
sentinel list; otherwise classify every root by the third derivative. -/
def inflection_points {E V : Type} (cas : CAS E V) (expr : E) (var? : Option String) :
    Except PyExc (List ((V ⊕ String) × String)) := do
  let var ← resolveVar cas expr var?
  let f1 := cas.diff expr var
  let f2 := cas.diff f1 var
  match cas.solve f2 var with
  | Except.error exc =>
    if exc.name = "NotImplementedError" ∨ exc.name = "ValueError" then
      pure [(Sum.inr unableMsg, exc.name)]
    else
      Except.error exc
  | Except.ok sols =>
    let f3 := cas.diff f2 var
    pure (sols.map fun s => (Sum.inl s, classifyThirdDeriv cas f3 var s))

/-! Concrete instantiation of the library interface: polynomials with rational
coefficients in one variable x, kept as ascending coefficient lists, plus a
marker for a transcendental expression whose equations the solver cannot
handle (SymPy raises NotImplementedError for an equation such as x = cos x). -/

/-- Concrete symbolic expressions for the instantiation. -/
inductive MExpr where
  | poly (coeffs : List ℚ)
  | unsolvable
deriving DecidableEq

/-- Horner evaluation of an ascending coefficient list. -/
def evalPoly (p : List ℚ) (x : ℚ) : ℚ :=
  p.foldr (fun c acc => c + x * acc) 0

/-- Coefficientwise derivative of an ascending coefficient list. -/
def polyDeriv (p : List ℚ) : List ℚ :=
  (p.drop 1).enum.map fun ic => ic.2 * ((ic.1 : ℚ) + 1)

/-- Coefficientwise antiderivative with zero constant term. -/
def polyIntegral (p : List ℚ) : List ℚ :=
  0 :: (p.enum.map fun ic => ic.2 / ((ic.1 : ℚ) + 1))

/-- Removal of trailing zero coefficients, so that the list length determines
the degree. -/
def stripTrailingZeros (p : List ℚ) : List ℚ :=
  (p.reverse.dropWhile fun c => decide (c = 0)).reverse

/-- Exhaustive search for a natural square root, used to decide whether a
discriminant is a rational square. -/
def sqrtWitness (n : ℕ) : Option ℕ :=
  (List.range (n + 1)).find? fun k => decide (k * k = n)

/-- Rational square root when it exists. -/
def ratSqrt (q : ℚ) : Option ℚ :=
  if q < 0 then none
  else
    match sqrtWitness q.num.toNat, sqrtWitness q.den with
    | some sn, some sd => some ((sn : ℚ) / (sd : ℚ))
    | _, _ => none

/-- Exact root finding for a normalized coefficient list, modelling the
external solver on the fragment the claims exercise: constants have no roots,
linear and quadratic polynomials with rational roots are solved exactly with
roots in ascending order, and everything else is reported as an unsupported
equation class. -/
def polySolve : List ℚ → Except PyExc (List ℚ)
  | [] => Except.ok []
  | [_] => Except.ok []
  | [c, b] => Except.ok [-c / b]
  | [c, b, a] =>
    match ratSqrt (b * b - 4 * a * c) with
    | some r =>
      if r = 0 then Except.ok [-b / (2 * a)]
      else
        let r1 := (-b - r) / (2 * a)
        let r2 := (-b + r) / (2 * a)
        Except.ok (if r1 ≤ r2 then [r1, r2] else [r2, r1])
    | none => Except.error ⟨"NotImplementedError"⟩
  | _ => Except.error ⟨"NotImplementedError"⟩

/-- The concrete library instantiation over MExpr with rational values. A
constant polynomial has no free symbols, every other expression has the free
symbol x; values are rational, hence always real, and comparisons never
raise. -/
def polyCAS : CAS MExpr ℚ where
  freeSymbols e :=
    match e with
    | MExpr.poly p => if (stripTrailingZeros p).length ≤ 1 then [] else ["x"]
    | MExpr.unsolvable => ["x"]
  diff e _ :=
    match e with
    | MExpr.poly p => MExpr.poly (polyDeriv p)
    | MExpr.unsolvable => MExpr.unsolvable
  integrate e _ :=
    match e with
    | MExpr.poly p => MExpr.poly (polyIntegral p)
    | MExpr.unsolvable => MExpr.unsolvable
  seriesExpand e _ n _ :=
    match e with
    | MExpr.poly p => MExpr.poly (p.take n)
    | MExpr.unsolvable => MExpr.unsolvable
  solve e _ :=
    match e with
    | MExpr.poly p => polySolve (stripTrailingZeros p)
    | MExpr.unsolvable => Except.error ⟨"NotImplementedError"⟩
  subs e _ s :=
    match e with
    | MExpr.poly p => Except.ok (evalPoly p s)
    | MExpr.unsolvable => Except.error ⟨"TypeError"⟩
  isReal _ := true
  cmpZero q := Except.ok (if 0 < q then Ordering.gt else if q < 0 then Ordering.lt else Ordering.eq)
  neZero q := decide (q ≠ 0)

/-! Slices of the command line driver main.py: the sentinel detection with
numeric fallback for critical and inflection points, the expression list
splitting, the default symbol guard, and the plot mode dispatch with its
exception handling. -/

/-- Check whether the list of characters needle occurs contiguously in hay,
modelling the Python substring test with the in operator. -/
def startsWithChars : List Char → List Char → Bool
  | [], _ => true
  | _ :: _, [] => false
  | a :: as, b :: bs => a = b && startsWithChars as bs

/-- Occurrence of needle at any position of hay. -/
def containsChars (needle : List Char) : List Char → Bool
  | [] => startsWithChars needle []
  | c :: rest => startsWithChars needle (c :: rest) || containsChars needle rest

/-- Python substring containment on strings. -/
def strContains (hay needle : String) : Bool :=
  containsChars needle.toList hay.toList

/-- Translation of the sentinel test in main.py (lines 143 and 164): the
result list is nonempty, its first entry has a string in the point position,
and that string contains the text Unable to solve. -/
def sentinelCheck {V : Type} : List ((V ⊕ String) × String) → Bool
  | (Sum.inr s, _) :: _ => strContains s "Unable to solve"
  | _ => false

/-- Uniform sample grid point number i of n between xmin and xmax. -/
def gridPoint (xmin xmax : ℚ) (n i : ℕ) : ℚ :=
  xmin + (xmax - xmin) * (i : ℚ) / ((n - 1 : ℕ) : ℚ)

/-- Uniform sample grid of n points between xmin and xmax. -/
def numGrid (xmin xmax : ℚ) (n : ℕ) : List ℚ :=
  (List.range n).map (gridPoint xmin xmax n)

/-- Root search over a uniform sample grid: a grid point where the function
vanishes is a root, and a sign change across two adjacent grid points yields
their midpoint as a root. -/
def gridRootScan (fval : ℚ → ℚ) (xmin xmax : ℚ) (samples : ℕ) : List ℚ :=
  let g := numGrid xmin xmax samples
  (g.zip g.tail).filterMap fun ab =>
    if fval ab.1 = 0 then some ab.1
    else if fval ab.1 * fval ab.2 < 0 then some ((ab.1 + ab.2) / 2)
    else none

/-- Sign classification of a root by the value of the next derivative there:
positive gives local min, negative gives local max, zero gives the inflection
flag. -/
def signClass (d2 : ℚ) : String :=
  if 0 < d2 then "local min" else if d2 < 0 then "local max" else "possible inflection"

/-- Modelled from the spec: numeric_critical_points is imported by main
(main.py line 146) from the analysis module but is not defined anywhere in
the supplied source. Spec section 4, step 3: a numeric root search over a
uniform sample grid between the user supplied bounds; step 4: each root is
classified by the sign of the next derivative. For the transcendental marker
no numeric evaluation is available in the model and the search finds no
roots. -/
def numeric_critical_points (e : MExpr) (_v : String) (xmin xmax : ℚ) (samples : ℕ) :
    List (ℚ × String) :=
  match e with
  | MExpr.unsolvable => []
  | MExpr.poly p =>
    let f1 := polyDeriv p
    let f2 := polyDeriv f1
    (gridRootScan (evalPoly f1) xmin xmax samples).map fun r => (r, signClass (evalPoly f2 r))

/-- Modelled from the spec: numeric_inflection_points is imported by main
(main.py line 168) from the analysis module but is not defined anywhere in
the supplied source. Spec section 4, step 3 gives the grid root search over
the second derivative; the roots are classified like the symbolic
inflection_points does, per the comment at main.py line 167. -/
def numeric_inflection_points (e : MExpr) (_v : String) (xmin xmax : ℚ) (samples : ℕ) :
    List (ℚ × String) :=
  match e with
  | MExpr.unsolvable => []
  | MExpr.poly p =>
    let f2 := polyDeriv (polyDeriv p)
    let f3 := polyDeriv f2
    (gridRootScan (evalPoly f2) xmin xmax samples).map fun r =>
      (r, if evalPoly f3 r = 0 then "possible higher-order" else "inflection")

/-- What the critical or inflection section of main ends up printing: either
the numeric fallback points or the symbolic result list. -/
inductive FallbackView (V : Type) where
  | numericSearch (pts : List (ℚ × String))
  | symbolic (pts : List ((V ⊕ String) × String))
deriving DecidableEq

/-- Translation of the critical point section of main (main.py lines 141 to
160): compute the symbolic result, and when the sentinel is detected call the
numeric search with the user supplied bounds and 2000 samples. The numeric
search function is a parameter, standing for the imported
numeric_critical_points. -/
def mainCritical {E V : Type} (cas : CAS E V)
    (ncp : E → String → ℚ → ℚ → ℕ → List (ℚ × String))
    (e : E) (v : String) (xmin xmax : ℚ) : Except PyExc (FallbackView V) := do
  let cp ← critical_points cas e (some v)
  if sentinelCheck cp then pure (FallbackView.numericSearch (ncp e v xmin xmax 2000))
  else pure (FallbackView.symbolic cp)

/-- Translation of the inflection point section of main (main.py lines 163 to
182), parameterized by the imported numeric_inflection_points. -/
def mainInflection {E V : Type} (cas : CAS E V)
    (nip : E → String → ℚ → ℚ → ℕ → List (ℚ × String))
    (e : E) (v : String) (xmin xmax : ℚ) : Except PyExc (FallbackView V) := do
  let ip ← inflection_points cas e (some v)
  if sentinelCheck ip then pure (FallbackView.numericSearch (nip e v xmin xmax 2000))
  else pure (FallbackView.symbolic ip)

/-- Translation of the variable guard in main (main.py line 128): the first
free symbol when there is one, the symbol x otherwise. -/
def mainVarChoice : List String → String
  | [] => "x"
  | v :: _ => v

/-- Split of a character list at every semicolon, matching the Python split
method with a nonempty separator. -/
def splitOnSemi : List Char → List (List Char)
  | [] => [[]]
  | c :: rest =>
    let r := splitOnSemi rest
    if c = ';' then [] :: r
    else
      match r with
      | [] => [[c]]
      | h :: t => (c :: h) :: t

/-- Removal of leading and trailing whitespace, matching the Python strip
method on the whitespace the inputs use. -/
def pyStrip (l : List Char) : List Char :=
  ((l.dropWhile Char.isWhitespace).reverse.dropWhile Char.isWhitespace).reverse

/-- Translation of the expression list construction in main (main.py line
119): split on semicolons, keep the segments whose stripped form is
nonempty, and strip each kept segment. -/
def splitExprs (s : String) : List String :=
  ((splitOnSemi s.toList).filter fun t => !(pyStrip t).isEmpty).map fun t => String.mk (pyStrip t)

/-- The expression list as the spec words it: split on semicolons, strip
surrounding whitespace from each segment, drop the empty segments. -/
def specSplit (s : String) : List String :=
  (((splitOnSemi s.toList).map fun t => String.mk (pyStrip t)).filter fun u => u ≠ "")

/-- Python truthiness of an optional string argument: present and nonempty. -/
def truthy : Option String → Bool
  | none => false
  | some s => s ≠ ""

/-- The per mode actions main can invoke, each possibly raising: the three
special plot modes (parse plus plot, the whole body of the try), the per
expression analysis loop body, and the three expression plot calls. -/
structure RenderOps where
  complexPlot : Except PyExc Unit
  implicitPlot : Except PyExc Unit
  parametricPlot : Except PyExc Unit
  analyze : String → Except PyExc Unit
  plot3d : Except PyExc Unit
  plot2dMarkers : Except PyExc Unit
  plotMultiple : Except PyExc Unit

/-- The command line arguments the dispatch slice inspects. -/
structure Args where
  complexArg : Option String
  implicitArg : Option String
  parametricX : Option String
  parametricY : Option String
  exprArg : Option String
  threeD : Bool
deriving DecidableEq

/-- Which rendering path main finished in. -/
inductive PlotOutcome where
  | complexShown
  | implicitShown
  | parametricShown
  | helpShown
  | surface3d
  | fallback2d
  | single2d
  | multi2d
deriving DecidableEq

/-- Normal return of the dispatch: the warnings printed, the expressions
analyzed in order, and the rendering path taken. -/
structure MainResult where
  warnings : List String
  analyzed : List String
  outcome : PlotOutcome
deriving DecidableEq

/-- The analysis loop of main (lines 126 to 236): each expression is analyzed
in order and a failure anywhere propagates, since the loop body is not inside
a try block. Returns the list of expressions analyzed, in order. -/
def runAnalyses (f : String → Except PyExc Unit) : List String → Except PyExc (List String)
  | [] => Except.ok []
  | e :: rest =>
    match f e with
    | Except.error exc => Except.error exc
    | Except.ok _ =>
      match runAnalyses f rest with
      | Except.error exc => Except.error exc
      | Except.ok l => Except.ok (e :: l)

/-- Translation of the mode dispatch of main (main.py lines 66 to 266): the
complex, implicit and parametric branches wrap their body in a broad except
that prints a warning and returns normally; the expression branch splits the
list, clears the 3D flag with a warning when several expressions are present,
runs the analysis loop, and then renders: the 3D branch indexes series[0]
(IndexError on an empty list), calls the surface plot inside a try whose
except prints a warning and calls the unprotected 2D fallback; the single and
multiple expression 2D plot calls are not inside any try, so their failures
propagate. -/
def mainDispatch (ops : RenderOps) (a : Args) : Except PyExc MainResult :=
  if truthy a.complexArg then
    match ops.complexPlot with
    | Except.ok _ => Except.ok ⟨[], [], PlotOutcome.complexShown⟩
    | Except.error e =>
      Except.ok ⟨["复变函数可视化失败: " ++ e.name], [], PlotOutcome.complexShown⟩
  else if truthy a.implicitArg then
    match ops.implicitPlot with
    | Except.ok _ => Except.ok ⟨[], [], PlotOutcome.implicitShown⟩
    | Except.error e =>
      Except.ok ⟨["隐函数绘图失败: " ++ e.name], [], PlotOutcome.implicitShown⟩
  else if truthy a.parametricX && truthy a.parametricY then
    match ops.parametricPlot with
    | Except.ok _ => Except.ok ⟨[], [], PlotOutcome.parametricShown⟩
    | Except.error e =>
      Except.ok ⟨["参数方程绘图失败: " ++ e.name], [], PlotOutcome.parametricShown⟩
  else if !truthy a.exprArg then
    Except.ok ⟨[], [], PlotOutcome.helpShown⟩
  else
    let exprs := splitExprs (a.exprArg.getD "")
    let many := decide (exprs.length > 1)
    let warns := if a.threeD && many then ["警告: 3D 绘图仅支持单个表达式，将忽略 --3d 选项"] else []
    let threeD := a.threeD && !many
    match runAnalyses ops.analyze exprs with
    | Except.error exc => Except.error exc
    | Except.ok analyzed =>
      if threeD then
        match exprs with
        | [] => Except.error ⟨"IndexError"⟩
        | _ :: _ =>
          match ops.plot3d with
          | Except.ok _ => Except.ok ⟨warns, analyzed, PlotOutcome.surface3d⟩
          | Except.error e =>
            match ops.plot2dMarkers with
            | Except.ok _ =>
              Except.ok ⟨warns ++ ["3D 绘图失败: " ++ e.name], analyzed, PlotOutcome.fallback2d⟩
            | Except.error e2 => Except.error e2
      else if exprs.length = 1 then
        match ops.plot2dMarkers with
        | Except.ok _ => Except.ok ⟨warns, analyzed, PlotOutcome.single2d⟩
        | Except.error e => Except.error e
      else
        match ops.plotMultiple with
        | Except.ok _ => Except.ok ⟨warns, analyzed, PlotOutcome.multi2d⟩
        | Except.error e => Except.error e

/-! Helper lemmas shared by the claim theorems. -/

/-- Unfolding of critical_points at an explicitly supplied variable. -/
lemma critical_points_some {E V : Type} (cas : CAS E V) (e : E) (v : String) :
    critical_points cas e (some v) =
      (match cas.solve (cas.diff e v) v with
       | Except.error exc =>
         if exc.name = "NotImplementedError" ∨ exc.name = "ValueError" then
           Except.ok [(Sum.inr unableMsg, exc.name)]
         else Except.error exc
       | Except.ok sols =>
         Except.ok (sols.map fun s =>
           (Sum.inl s, classifySecondDeriv cas (cas.diff (cas.diff e v) v) v s))) := rfl

/-- Unfolding of inflection_points at an explicitly supplied variable. -/
lemma inflection_points_some {E V : Type} (cas : CAS E V) (e : E) (v : String) :
    inflection_points cas e (some v) =
      (match cas.solve (cas.diff (cas.diff e v) v) v with
       | Except.error exc =>
         if exc.name = "NotImplementedError" ∨ exc.name = "ValueError" then
           Except.ok [(Sum.inr unableMsg, exc.name)]
         else Except.error exc
       | Except.ok sols =>
         Except.ok (sols.map fun s =>
           (Sum.inl s,
             classifyThirdDeriv cas (cas.diff (cas.diff (cas.diff e v) v) v) v s))) := rfl

/-! Theorems settling the claims. -/

/-- C1: for every expression whose first derivative equation the solver
solves, critical_points classifies each root by the sign of the second
derivative evaluated there: a positive value gives local min, a negative
value gives local max, a zero value gives the possible inflection flag, a non
real value gives complex, and an exception during evaluation or comparison
gives unknown; the classification loop itself never propagates an exception,
the function returning a normal list whenever the solver succeeded. -/
theorem claim1_classification {E V : Type} (cas : CAS E V) (e : E) (v : String)
    (sols : List V) (hs : cas.solve (cas.diff e v) v = Except.ok sols) :
    critical_points cas e (some v) =
      Except.ok (sols.map fun s =>
        (Sum.inl s, classifySecondDeriv cas (cas.diff (cas.diff e v) v) v s)) ∧
    (∀ s : V,
      (∀ exc, cas.subs (cas.diff (cas.diff e v) v) v s = Except.error exc →
        classifySecondDeriv cas (cas.diff (cas.diff e v) v) v s = "unknown") ∧
      (∀ val, cas.subs (cas.diff (cas.diff e v) v) v s = Except.ok val →
        (cas.isReal val = false →
          classifySecondDeriv cas (cas.diff (cas.diff e v) v) v s = "complex") ∧
        (cas.isReal val = true →
          (cas.cmpZero val = Except.ok Ordering.gt →
            classifySecondDeriv cas (cas.diff (cas.diff e v) v) v s = "local min") ∧
          (cas.cmpZero val = Except.ok Ordering.lt →
            classifySecondDeriv cas (cas.diff (cas.diff e v) v) v s = "local max") ∧
          (cas.cmpZero val = Except.ok Ordering.eq →
            classifySecondDeriv cas (cas.diff (cas.diff e v) v) v s = "possible inflection") ∧
          (∀ exc, cas.cmpZero val = Except.error exc →
            classifySecondDeriv cas (cas.diff (cas.diff e v) v) v s = "unknown")))) := by
  constructor
  · rw [critical_points_some, hs]
  · intro s
    constructor
    · intro exc hsub
      simp [classifySecondDeriv, hsub]
    · intro val hsub
      constructor
      · intro hreal
        simp [classifySecondDeriv, hsub, hreal]
      · intro hreal
        refine ⟨?_, ?_, ?_, ?_⟩
        · intro h
          simp [classifySecondDeriv, hsub, hreal, h]
        · intro h
          simp [classifySecondDeriv, hsub, hreal, h]
        · intro h
          simp [classifySecondDeriv, hsub, hreal, h]
        · intro exc2 h
          simp [classifySecondDeriv, hsub, hreal, h]

/-- Witness for C1 at the expression x squared: the solver succeeds with the
single root zero and critical_points returns the classified list. -/
theorem claim1_classification_witness :
    polyCAS.solve (polyCAS.diff (MExpr.poly [0, 0, 1]) "x") "x" = Except.ok [(0 : ℚ)] ∧
    critical_points polyCAS (MExpr.poly [0, 0, 1]) (some "x") =
      Except.ok ([(0 : ℚ)].map fun s =>
        (Sum.inl s,
          classifySecondDeriv polyCAS
            (polyCAS.diff (polyCAS.diff (MExpr.poly [0, 0, 1]) "x") "x") "x" s)) :=
  ⟨by with_unfolding_all rfl,
   (claim1_classification polyCAS (MExpr.poly [0, 0, 1]) "x" [0]
     (by with_unfolding_all rfl)).1⟩

/-- C2: when the solver raises NotImplementedError or ValueError on the first
derivative equation, critical_points returns the sentinel list instead of
propagating, and likewise inflection_points for the second derivative
equation. -/
theorem claim2_sentinel {E V : Type} (cas : CAS E V) (e : E) (v : String) (exc : PyExc)
    (hname : exc.name = "NotImplementedError" ∨ exc.name = "ValueError") :
    (cas.solve (cas.diff e v) v = Except.error exc →
      critical_points cas e (some v) = Except.ok [(Sum.inr unableMsg, exc.name)]) ∧
    (cas.solve (cas.diff (cas.diff e v) v) v = Except.error exc →
      inflection_points cas e (some v) = Except.ok [(Sum.inr unableMsg, exc.name)]) := by
  constructor
  · intro h
    rw [critical_points_some, h]
    simp [hname]
  · intro h
    rw [inflection_points_some, h]
    simp [hname]

/-- Witness for C2 at the transcendental marker expression, whose derivative
equations the solver rejects with NotImplementedError. -/
theorem claim2_sentinel_witness :
    critical_points polyCAS MExpr.unsolvable (some "x") =
      Except.ok [(Sum.inr unableMsg, "NotImplementedError")] ∧
    inflection_points polyCAS MExpr.unsolvable (some "x") =
      Except.ok [(Sum.inr unableMsg, "NotImplementedError")] :=
  ⟨(claim2_sentinel polyCAS MExpr.unsolvable "x" ⟨"NotImplementedError"⟩ (Or.inl rfl)).1 rfl,
   (claim2_sentinel polyCAS MExpr.unsolvable "x" ⟨"NotImplementedError"⟩ (Or.inl rfl)).2 rfl⟩

/-- Every point of the uniform sample grid lies between the bounds. -/
lemma mem_numGrid_bounds {xmin xmax : ℚ} (h : xmin ≤ xmax) {n : ℕ} {x : ℚ}
    (hx : x ∈ numGrid xmin xmax n) : xmin ≤ x ∧ x ≤ xmax := by
  rcases List.mem_map.1 hx with ⟨i, hi, rfl⟩
  rw [List.mem_range] at hi
  unfold gridPoint
  set d : ℚ := ((n - 1 : ℕ) : ℚ) with hd
  have hd0 : 0 ≤ d := by
    rw [hd]
    exact Nat.cast_nonneg _
  have hnum : 0 ≤ (xmax - xmin) * (i : ℚ) :=
    mul_nonneg (by linarith) (Nat.cast_nonneg i)
  constructor
  · have ht : 0 ≤ (xmax - xmin) * (i : ℚ) / d := div_nonneg hnum hd0
    linarith
  · rcases eq_or_lt_of_le hd0 with hdz | hdp
    · rw [← hdz, div_zero]
      linarith
    · have hle : (i : ℚ) ≤ d := by
        rw [hd]
        exact_mod_cast Nat.le_sub_one_of_lt hi
      have ht : (xmax - xmin) * (i : ℚ) / d ≤ xmax - xmin := by
        rw [div_le_iff₀ hdp]
        calc (xmax - xmin) * (i : ℚ) ≤ (xmax - xmin) * d :=
              mul_le_mul_of_nonneg_left hle (by linarith)
          _ = (xmax - xmin) * d := rfl
      linarith

/-- Every root the grid scan produces lies between the bounds: it is either a
grid point or the midpoint of two grid points. -/
lemma mem_gridRootScan_bounds {f : ℚ → ℚ} {xmin xmax : ℚ} (h : xmin ≤ xmax) {n : ℕ} {r : ℚ}
    (hr : r ∈ gridRootScan f xmin xmax n) : xmin ≤ r ∧ r ≤ xmax := by
  unfold gridRootScan at hr
  rcases List.mem_filterMap.1 hr with ⟨ab, hab, heq⟩
  obtain ⟨a, b⟩ := ab
  have hmem := List.of_mem_zip hab
  have b1 := mem_numGrid_bounds h hmem.1
  have b2 := mem_numGrid_bounds h (List.mem_of_mem_tail hmem.2)
  by_cases hz : f a = 0
  · rw [if_pos hz] at heq
    obtain rfl : a = r := Option.some.inj heq
    exact b1
  · rw [if_neg hz] at heq
    by_cases hwz : f a * f b < 0
    · rw [if_pos hwz] at heq
      obtain rfl : (a + b) / 2 = r := Option.some.inj heq
      constructor
      · linarith [b1.1, b2.1]
      · linarith [b1.2, b2.2]
    · rw [if_neg hwz] at heq
      exact absurd heq (by simp)

/-- Unfolding of the critical point section of main. -/
lemma mainCritical_eq {E V : Type} (cas : CAS E V)
    (ncp : E → String → ℚ → ℚ → ℕ → List (ℚ × String))
    (e : E) (v : String) (xmin xmax : ℚ) :
    mainCritical cas ncp e v xmin xmax =
      (match critical_points cas e (some v) with
       | Except.error exc => Except.error exc
       | Except.ok cp =>
         if sentinelCheck cp then
           Except.ok (FallbackView.numericSearch (ncp e v xmin xmax 2000))
         else Except.ok (FallbackView.symbolic cp)) := by
  unfold mainCritical
  cases h : critical_points cas e (some v) <;> simp [h, Bind.bind, Except.bind, pure, Except.pure]

/-- Unfolding of the inflection point section of main. -/
lemma mainInflection_eq {E V : Type} (cas : CAS E V)
    (nip : E → String → ℚ → ℚ → ℕ → List (ℚ × String))
    (e : E) (v : String) (xmin xmax : ℚ) :
    mainInflection cas nip e v xmin xmax =
      (match inflection_points cas e (some v) with
       | Except.error exc => Except.error exc
       | Except.ok ip =>
         if sentinelCheck ip then
           Except.ok (FallbackView.numericSearch (nip e v xmin xmax 2000))
         else Except.ok (FallbackView.symbolic ip)) := by
  unfold mainInflection
  cases h : inflection_points cas e (some v) <;> simp [h, Bind.bind, Except.bind, pure, Except.pure]

/-- C3: whenever critical_points returns the unable to solve sentinel, main
detects it and substitutes the numeric root search over the uniform sample
grid between the user supplied bounds with 2000 samples, and independently
likewise for inflection_points; every root either numeric search produces
lies between those bounds. The two sections are independent: the sentinel
hypothesis of each conjunct concerns only its own function. The numeric
search functions are absent from the supplied source and are modelled from
the spec. -/
theorem claim3_numeric_fallback (e : MExpr) (v : String) (xmin xmax : ℚ)
    (hb : xmin ≤ xmax) :
    (∀ lc : List ((ℚ ⊕ String) × String),
      critical_points polyCAS e (some v) = Except.ok lc →
      sentinelCheck lc = true →
      mainCritical polyCAS numeric_critical_points e v xmin xmax =
        Except.ok (FallbackView.numericSearch (numeric_critical_points e v xmin xmax 2000))) ∧
    (∀ li : List ((ℚ ⊕ String) × String),
      inflection_points polyCAS e (some v) = Except.ok li →
      sentinelCheck li = true →
      mainInflection polyCAS numeric_inflection_points e v xmin xmax =
        Except.ok (FallbackView.numericSearch (numeric_inflection_points e v xmin xmax 2000))) ∧
    (∀ p ∈ numeric_critical_points e v xmin xmax 2000, xmin ≤ p.1 ∧ p.1 ≤ xmax) ∧
    (∀ p ∈ numeric_inflection_points e v xmin xmax 2000, xmin ≤ p.1 ∧ p.1 ≤ xmax) := by
  refine ⟨?_, ?_, ?_, ?_⟩
  · intro lc hc hsc
    rw [mainCritical_eq, hc]
    simp [hsc]
  · intro li hi hsi
    rw [mainInflection_eq, hi]
    simp [hsi]
  · intro p hp
    cases e with
    | unsolvable => simp [numeric_critical_points] at hp
    | poly q =>
      rcases List.mem_map.1 hp with ⟨r, hr, rfl⟩
      exact mem_gridRootScan_bounds hb hr
  · intro p hp
    cases e with
    | unsolvable => simp [numeric_inflection_points] at hp
    | poly q =>
      rcases List.mem_map.1 hp with ⟨r, hr, rfl⟩
      exact mem_gridRootScan_bounds hb hr

/-- Witness for C3: the first conjunct is exercised at the quartic x to the
fourth, whose first derivative equation is an unsolvable cubic while its
second derivative equation is a solvable quadratic, so only critical_points
hits the sentinel there; the second conjunct is exercised at the
transcendental marker. Bounds are -5 and 5. -/
theorem claim3_numeric_fallback_witness :
    mainCritical polyCAS numeric_critical_points (MExpr.poly [0, 0, 0, 0, 1]) "x" (-5) 5 =
      Except.ok (FallbackView.numericSearch
        (numeric_critical_points (MExpr.poly [0, 0, 0, 0, 1]) "x" (-5) 5 2000)) ∧
    mainInflection polyCAS numeric_inflection_points MExpr.unsolvable "x" (-5) 5 =
      Except.ok (FallbackView.numericSearch
        (numeric_inflection_points MExpr.unsolvable "x" (-5) 5 2000)) :=
  ⟨(claim3_numeric_fallback (MExpr.poly [0, 0, 0, 0, 1]) "x" (-5) 5 (by norm_num)).1
      [(Sum.inr unableMsg, "NotImplementedError")]
      (by with_unfolding_all rfl) (by with_unfolding_all rfl),
   (claim3_numeric_fallback MExpr.unsolvable "x" (-5) 5 (by norm_num)).2.1
      [(Sum.inr unableMsg, "NotImplementedError")]
      (by with_unfolding_all rfl) (by with_unfolding_all rfl)⟩

/-- C4 counterexample: for f equal to minus x cubed, the third derivative at
the root zero of the second derivative equation evaluates to minus six, which
is negative, yet inflection_points classifies the root as inflection and not
as local max, so the sign mapping of step 4 is not the one
inflection_points applies. -/
theorem claim4_counterexample :
    polyCAS.subs
        (polyCAS.diff (polyCAS.diff (polyCAS.diff (MExpr.poly [0, 0, 0, -1]) "x") "x") "x")
        "x" 0 = Except.ok (-6) ∧
    ((-6 : ℚ) < 0) ∧
    inflection_points polyCAS (MExpr.poly [0, 0, 0, -1]) (some "x") =
      Except.ok [(Sum.inl 0, "inflection")] ∧
    "inflection" ≠ "local max" :=
  ⟨by with_unfolding_all rfl, by norm_num, by with_unfolding_all rfl, by decide⟩

/-- C4 amended: the symbolic then numeric fallback structure is shared with
critical_points, but inflection_points classifies each root of the second
derivative equation by whether the third derivative there is nonzero, not by
the min and max sign mapping: a nonzero real value gives inflection, a zero
real value gives possible higher-order, a non real value gives complex, and
an evaluation error gives unknown. -/
theorem claim4_amended {E V : Type} (cas : CAS E V) (e : E) (v : String)
    (sols : List V)
    (hs : cas.solve (cas.diff (cas.diff e v) v) v = Except.ok sols) :
    inflection_points cas e (some v) =
      Except.ok (sols.map fun s =>
        (Sum.inl s,
          classifyThirdDeriv cas (cas.diff (cas.diff (cas.diff e v) v) v) v s)) ∧
    (∀ s : V,
      (∀ exc, cas.subs (cas.diff (cas.diff (cas.diff e v) v) v) v s = Except.error exc →
        classifyThirdDeriv cas (cas.diff (cas.diff (cas.diff e v) v) v) v s = "unknown") ∧
      (∀ val, cas.subs (cas.diff (cas.diff (cas.diff e v) v) v) v s = Except.ok val →
        (cas.isReal val = false →
          classifyThirdDeriv cas (cas.diff (cas.diff (cas.diff e v) v) v) v s = "complex") ∧
        (cas.isReal val = true →
          (cas.neZero val = true →
            classifyThirdDeriv cas (cas.diff (cas.diff (cas.diff e v) v) v) v s =
              "inflection") ∧
          (cas.neZero val = false →
            classifyThirdDeriv cas (cas.diff (cas.diff (cas.diff e v) v) v) v s =
              "possible higher-order")))) := by
  constructor
  · rw [inflection_points_some, hs]
  · intro s
    constructor
    · intro exc hsub
      simp [classifyThirdDeriv, hsub]
    · intro val hsub
      constructor
      · intro hreal
        simp [classifyThirdDeriv, hsub, hreal]
      · intro hreal
        constructor
        · intro hne
          simp [classifyThirdDeriv, hsub, hreal, hne]
        · intro hne
          simp [classifyThirdDeriv, hsub, hreal, hne]

/-- Witness for the amended C4 at x cubed: the second derivative equation has
the single root zero and inflection_points returns the classified list. -/
theorem claim4_amended_witness :
    polyCAS.solve (polyCAS.diff (polyCAS.diff (MExpr.poly [0, 0, 0, 1]) "x") "x") "x" =
      Except.ok [(0 : ℚ)] ∧
    inflection_points polyCAS (MExpr.poly [0, 0, 0, 1]) (some "x") =
      Except.ok ([(0 : ℚ)].map fun s =>
        (Sum.inl s,
          classifyThirdDeriv polyCAS
            (polyCAS.diff (polyCAS.diff (polyCAS.diff (MExpr.poly [0, 0, 0, 1]) "x") "x") "x")
            "x" s)) :=
  ⟨by with_unfolding_all rfl,
   (claim4_amended polyCAS (MExpr.poly [0, 0, 0, 1]) "x" [0]
     (by with_unfolding_all rfl)).1⟩

/-- C5: critical_points classifies the critical point zero of x squared as
local min and the critical point zero of minus x squared as local max. -/
theorem claim5_square_extrema :
    critical_points polyCAS (MExpr.poly [0, 0, 1]) (some "x") =
      Except.ok [(Sum.inl 0, "local min")] ∧
    critical_points polyCAS (MExpr.poly [0, 0, -1]) (some "x") =
      Except.ok [(Sum.inl 0, "local max")] :=
  ⟨by with_unfolding_all rfl, by with_unfolding_all rfl⟩

/-- C6: for x cubed the point zero carries the inflection flag under both
classification paths, possible inflection from critical_points and inflection
from inflection_points, and neither flag is local min or local max. -/
theorem claim6_cubic_inflection :
    critical_points polyCAS (MExpr.poly [0, 0, 0, 1]) (some "x") =
      Except.ok [(Sum.inl 0, "possible inflection")] ∧
    inflection_points polyCAS (MExpr.poly [0, 0, 0, 1]) (some "x") =
      Except.ok [(Sum.inl 0, "inflection")] ∧
    "possible inflection" ≠ "local min" ∧ "possible inflection" ≠ "local max" ∧
    "inflection" ≠ "local min" ∧ "inflection" ≠ "local max" :=
  ⟨by with_unfolding_all rfl, by with_unfolding_all rfl,
   by decide, by decide, by decide, by decide⟩

/-- When every analysis call succeeds, the analysis loop returns the whole
expression list in order. -/
lemma runAnalyses_ok (f : String → Except PyExc Unit) (h : ∀ x, f x = Except.ok ())
    (l : List String) : runAnalyses f l = Except.ok l := by
  induction l with
  | nil => rfl
  | cons e rest ih => simp [runAnalyses, h e, ih]

/-- C7 counterexample: in the plain 2D expression mode a failure of the
markers plot call propagates out of main instead of being caught, because
that call is not inside any try block. -/
theorem claim7_counterexample :
    mainDispatch
      ⟨Except.ok (), Except.ok (), Except.ok (), fun _ => Except.ok (),
       Except.ok (), Except.error ⟨"RuntimeError"⟩, Except.ok ()⟩
      ⟨none, none, none, none, some "x", false⟩ =
      Except.error ⟨"RuntimeError"⟩ := by
  with_unfolding_all rfl

/-- C7 amended: failures are caught and turned into a printed warning with a
normal return for the complex, implicit and parametric modes, and for the 3D
surface call, which falls back to the 2D markers plot; failures of the 2D
rendering calls themselves (single expression, multiple expressions, or the
fallback inside the 3D except branch) propagate out of main. -/
theorem claim7_amended :
    (∀ (ops : RenderOps) (a : Args) (exc : PyExc),
      truthy a.complexArg = true →
      ops.complexPlot = Except.error exc →
      mainDispatch ops a =
        Except.ok ⟨["复变函数可视化失败: " ++ exc.name], [], PlotOutcome.complexShown⟩) ∧
    (∀ (ops : RenderOps) (a : Args) (exc : PyExc),
      truthy a.complexArg = false →
      truthy a.implicitArg = true →
      ops.implicitPlot = Except.error exc →
      mainDispatch ops a =
        Except.ok ⟨["隐函数绘图失败: " ++ exc.name], [], PlotOutcome.implicitShown⟩) ∧
    (∀ (ops : RenderOps) (a : Args) (exc : PyExc),
      truthy a.complexArg = false →
      truthy a.implicitArg = false →
      (truthy a.parametricX && truthy a.parametricY) = true →
      ops.parametricPlot = Except.error exc →
      mainDispatch ops a =
        Except.ok ⟨["参数方程绘图失败: " ++ exc.name], [], PlotOutcome.parametricShown⟩) ∧
    (∀ (ops : RenderOps) (a : Args) (exc : PyExc) (analyzed : List String),
      truthy a.complexArg = false →
      truthy a.implicitArg = false →
      (truthy a.parametricX && truthy a.parametricY) = false →
      truthy a.exprArg = true →
      a.threeD = true →
      (splitExprs (a.exprArg.getD "")).length = 1 →
      runAnalyses ops.analyze (splitExprs (a.exprArg.getD "")) = Except.ok analyzed →
      ops.plot3d = Except.error exc →
      ops.plot2dMarkers = Except.ok () →
      mainDispatch ops a =
        Except.ok ⟨["3D 绘图失败: " ++ exc.name], analyzed, PlotOutcome.fallback2d⟩) ∧
    (∀ (ops : RenderOps) (a : Args) (exc : PyExc) (analyzed : List String),
      truthy a.complexArg = false →
      truthy a.implicitArg = false →
      (truthy a.parametricX && truthy a.parametricY) = false →
      truthy a.exprArg = true →
      a.threeD = false →
      (splitExprs (a.exprArg.getD "")).length = 1 →
      runAnalyses ops.analyze (splitExprs (a.exprArg.getD "")) = Except.ok analyzed →
      ops.plot2dMarkers = Except.error exc →
      mainDispatch ops a = Except.error exc) ∧
    (∀ (ops : RenderOps) (a : Args) (exc : PyExc) (analyzed : List String),
      truthy a.complexArg = false →
      truthy a.implicitArg = false →
      (truthy a.parametricX && truthy a.parametricY) = false →
      truthy a.exprArg = true →
      a.threeD = false →
      (splitExprs (a.exprArg.getD "")).length > 1 →
      runAnalyses ops.analyze (splitExprs (a.exprArg.getD "")) = Except.ok analyzed →
      ops.plotMultiple = Except.error exc →
      mainDispatch ops a = Except.error exc) ∧
    (∀ (ops : RenderOps) (a : Args) (exc exc2 : PyExc) (analyzed : List String),
      truthy a.complexArg = false →
      truthy a.implicitArg = false →
      (truthy a.parametricX && truthy a.parametricY) = false →
      truthy a.exprArg = true →
      a.threeD = true →
      (splitExprs (a.exprArg.getD "")).length = 1 →
      runAnalyses ops.analyze (splitExprs (a.exprArg.getD "")) = Except.ok analyzed →
      ops.plot3d = Except.error exc →
      ops.plot2dMarkers = Except.error exc2 →
      mainDispatch ops a = Except.error exc2) := by
  refine ⟨?_, ?_, ?_, ?_, ?_, ?_, ?_⟩
  · intro ops a exc hc hfail
    simp [mainDispatch, hc, hfail]
  · intro ops a exc hc hi hfail
    simp [mainDispatch, hc, hi, hfail]
  · intro ops a exc hc hi hp hfail
    simp [mainDispatch, hc, hi, hp, hfail]
  · intro ops a exc analyzed hc hi hp he h3 hlen hana h3d hm
    obtain ⟨x, hx⟩ := List.length_eq_one.1 hlen
    rw [hx] at hana
    simp [mainDispatch, hc, hi, hp, he, h3, hx, hana, h3d, hm]
  · intro ops a exc analyzed hc hi hp he h3 hlen hana hfail
    obtain ⟨x, hx⟩ := List.length_eq_one.1 hlen
    rw [hx] at hana
    simp [mainDispatch, hc, hi, hp, he, h3, hx, hana, hfail]
  · intro ops a exc analyzed hc hi hp he h3 hlen hana hfail
    have hne : ¬(splitExprs (a.exprArg.getD "")).length = 1 := by omega
    simp [mainDispatch, hc, hi, hp, he, h3, hana, hne, hfail]
  · intro ops a exc exc2 analyzed hc hi hp he h3 hlen hana h3d hm
    obtain ⟨x, hx⟩ := List.length_eq_one.1 hlen
    rw [hx] at hana
    simp [mainDispatch, hc, hi, hp, he, h3, hx, hana, h3d, hm]

/-- Witness for the amended C7: concrete failing renderers in each caught
mode produce the warning and a normal return, and concrete failures of the
single expression markers plot, of the multi expression comparison plot, and
of the 2D fallback call inside the 3D except branch propagate out. -/
theorem claim7_amended_witness :
    mainDispatch
      ⟨Except.error ⟨"ValueError"⟩, Except.ok (), Except.ok (), fun _ => Except.ok (),
       Except.ok (), Except.ok (), Except.ok ()⟩
      ⟨some "z**2", none, none, none, none, false⟩ =
      Except.ok ⟨["复变函数可视化失败: ValueError"], [], PlotOutcome.complexShown⟩ ∧
    mainDispatch
      ⟨Except.ok (), Except.error ⟨"ValueError"⟩, Except.ok (), fun _ => Except.ok (),
       Except.ok (), Except.ok (), Except.ok ()⟩
      ⟨none, some "x**2+y**2-1", none, none, none, false⟩ =
      Except.ok ⟨["隐函数绘图失败: ValueError"], [], PlotOutcome.implicitShown⟩ ∧
    mainDispatch
      ⟨Except.ok (), Except.ok (), Except.error ⟨"ValueError"⟩, fun _ => Except.ok (),
       Except.ok (), Except.ok (), Except.ok ()⟩
      ⟨none, none, some "cos(t)", some "sin(t)", none, false⟩ =
      Except.ok ⟨["参数方程绘图失败: ValueError"], [], PlotOutcome.parametricShown⟩ ∧
    mainDispatch
      ⟨Except.ok (), Except.ok (), Except.ok (), fun _ => Except.ok (),
       Except.error ⟨"ValueError"⟩, Except.ok (), Except.ok ()⟩
      ⟨none, none, none, none, some "x", true⟩ =
      Except.ok ⟨["3D 绘图失败: ValueError"], ["x"], PlotOutcome.fallback2d⟩ ∧
    mainDispatch
      ⟨Except.ok (), Except.ok (), Except.ok (), fun _ => Except.ok (),
       Except.ok (), Except.error ⟨"TypeError"⟩, Except.ok ()⟩
      ⟨none, none, none, none, some "x", false⟩ =
      Except.error ⟨"TypeError"⟩ ∧
    mainDispatch
      ⟨Except.ok (), Except.ok (), Except.ok (), fun _ => Except.ok (),
       Except.ok (), Except.ok (), Except.error ⟨"RuntimeError"⟩⟩
      ⟨none, none, none, none, some "x;x**2", false⟩ =
      Except.error ⟨"RuntimeError"⟩ ∧
    mainDispatch
      ⟨Except.ok (), Except.ok (), Except.ok (), fun _ => Except.ok (),
       Except.error ⟨"ValueError"⟩, Except.error ⟨"OSError"⟩, Except.ok ()⟩
      ⟨none, none, none, none, some "x", true⟩ =
      Except.error ⟨"OSError"⟩ :=
  ⟨claim7_amended.1 _ _ ⟨"ValueError"⟩ (by with_unfolding_all rfl) rfl,
   claim7_amended.2.1 _ _ ⟨"ValueError"⟩ rfl (by with_unfolding_all rfl) rfl,
   claim7_amended.2.2.1 _ _ ⟨"ValueError"⟩ rfl rfl (by with_unfolding_all rfl) rfl,
   claim7_amended.2.2.2.1 _ _ ⟨"ValueError"⟩ ["x"] rfl rfl rfl
     (by with_unfolding_all rfl) rfl (by with_unfolding_all rfl)
     (by with_unfolding_all rfl) rfl rfl,
   claim7_amended.2.2.2.2.1 _ _ ⟨"TypeError"⟩ ["x"] rfl rfl rfl
     (by with_unfolding_all rfl) rfl (by with_unfolding_all rfl)
     (by with_unfolding_all rfl) rfl,
   claim7_amended.2.2.2.2.2.1 _ _ ⟨"RuntimeError"⟩ ["x", "x**2"] rfl rfl rfl
     (by with_unfolding_all rfl) rfl (by with_unfolding_all decide)
     (by with_unfolding_all rfl) rfl,
   claim7_amended.2.2.2.2.2.2 _ _ ⟨"ValueError"⟩ ⟨"OSError"⟩ ["x"] rfl rfl rfl
     (by with_unfolding_all rfl) rfl (by with_unfolding_all rfl)
     (by with_unfolding_all rfl) rfl rfl⟩

/-- C8: the expr argument is split on semicolons, each segment is stripped of
surrounding whitespace, empty segments are dropped, and in expression mode
main analyzes exactly that list in order. -/
theorem claim8_split (ops : RenderOps) (a : Args) (s : String)
    (hc : truthy a.complexArg = false) (hi : truthy a.implicitArg = false)
    (hp : (truthy a.parametricX && truthy a.parametricY) = false)
    (he : a.exprArg = some s) (hs : s ≠ "")
    (h3 : a.threeD = false)
    (hana : ∀ x, ops.analyze x = Except.ok ())
    (hm1 : ops.plot2dMarkers = Except.ok ())
    (hmm : ops.plotMultiple = Except.ok ()) :
    splitExprs s = specSplit s ∧
    (∃ r : MainResult, mainDispatch ops a = Except.ok r ∧ r.analyzed = splitExprs s) := by
  constructor
  · unfold splitExprs specSplit
    have hpred : ∀ t : List Char,
        (fun u : String => decide (u ≠ "")) ((fun t : List Char => String.mk (pyStrip t)) t) =
          !(pyStrip t).isEmpty := by
      intro t
      show decide (String.mk (pyStrip t) ≠ "") = !(pyStrip t).isEmpty
      cases pyStrip t with
      | nil => with_unfolding_all rfl
      | cons c cs => with_unfolding_all rfl
    rw [List.filter_map]
    congr 1
    exact (List.filter_congr fun t _ => hpred t).symm
  · have hts : truthy (some s) = true := by
      simp [truthy, hs]
    by_cases hl : (splitExprs s).length = 1
    · refine ⟨⟨[], splitExprs s, PlotOutcome.single2d⟩, ?_, rfl⟩
      simp [mainDispatch, hc, hi, hp, he, hts, h3, runAnalyses_ok ops.analyze hana, hl, hm1]
    · refine ⟨⟨[], splitExprs s, PlotOutcome.multi2d⟩, ?_, rfl⟩
      simp [mainDispatch, hc, hi, hp, he, hts, h3, runAnalyses_ok ops.analyze hana, hl, hmm]

/-- Witness for C8 at a string with surrounding whitespace and an empty
segment: the split drops the empty segment and strips the rest, and main
analyzes that list. -/
theorem claim8_split_witness :
    splitExprs " sin(x) ; ;cos(x); " = specSplit " sin(x) ; ;cos(x); " ∧
    (∃ r : MainResult,
      mainDispatch
        ⟨Except.ok (), Except.ok (), Except.ok (), fun _ => Except.ok (),
         Except.ok (), Except.ok (), Except.ok ()⟩
        ⟨none, none, none, none, some " sin(x) ; ;cos(x); ", false⟩ = Except.ok r ∧
      r.analyzed = splitExprs " sin(x) ; ;cos(x); ") :=
  claim8_split _ _ " sin(x) ; ;cos(x); " rfl rfl rfl rfl (by decide) rfl
    (fun _ => rfl) rfl rfl

/-- C9 counterexample: with the 3D flag set and an expr argument that splits
to zero expressions, the 3D branch is still entered and main raises
IndexError from series[0], so the 3D path is not restricted to exactly one
supplied expression. -/
theorem claim9_counterexample :
    splitExprs ";" = [] ∧
    mainDispatch
      ⟨Except.ok (), Except.ok (), Except.ok (), fun _ => Except.ok (),
       Except.ok (), Except.ok (), Except.ok ()⟩
      ⟨none, none, none, none, some ";", true⟩ =
      Except.error ⟨"IndexError"⟩ :=
  ⟨by with_unfolding_all rfl, by with_unfolding_all rfl⟩

/-- C9 amended: with the 3D flag and more than one expression main warns,
clears the flag and renders the multi series comparison plot; the 3D branch
is entered whenever the flag survives, that is when at most one expression
resulted from the split: with exactly one it renders the surface, and with
zero it raises IndexError from the series[0] access. -/
theorem claim9_amended (ops : RenderOps) (a : Args) (s : String)
    (hc : truthy a.complexArg = false) (hi : truthy a.implicitArg = false)
    (hp : (truthy a.parametricX && truthy a.parametricY) = false)
    (he : a.exprArg = some s) (hs : s ≠ "")
    (h3 : a.threeD = true)
    (hana : ∀ x, ops.analyze x = Except.ok ())
    (h3d : ops.plot3d = Except.ok ())
    (hmm : ops.plotMultiple = Except.ok ()) :
    ((splitExprs s).length > 1 →
      mainDispatch ops a =
        Except.ok ⟨["警告: 3D 绘图仅支持单个表达式，将忽略 --3d 选项"], splitExprs s,
          PlotOutcome.multi2d⟩) ∧
    ((splitExprs s).length = 1 →
      mainDispatch ops a = Except.ok ⟨[], splitExprs s, PlotOutcome.surface3d⟩) ∧
    ((splitExprs s).length = 0 →
      mainDispatch ops a = Except.error ⟨"IndexError"⟩) := by
  have hts : truthy (some s) = true := by
    simp [truthy, hs]
  refine ⟨?_, ?_, ?_⟩
  · intro hgt
    have hne : ¬(splitExprs s).length = 1 := by omega
    simp [mainDispatch, hc, hi, hp, he, hts, h3, runAnalyses_ok ops.analyze hana, hgt, hne,
      hmm]
  · intro hone
    obtain ⟨x, hx⟩ := List.length_eq_one.1 hone
    have hngt : ¬(splitExprs s).length > 1 := by omega
    simp [mainDispatch, hc, hi, hp, he, hts, h3, runAnalyses_ok ops.analyze hana, hx, h3d]
  · intro hzero
    have hnil : splitExprs s = [] := List.length_eq_zero.1 hzero
    simp [mainDispatch, hc, hi, hp, he, hts, h3, runAnalyses_ok ops.analyze hana, hnil]

/-- Witness for the amended C9: two expressions with the 3D flag produce the
warning and the comparison plot. -/
theorem claim9_amended_witness :
    mainDispatch
      ⟨Except.ok (), Except.ok (), Except.ok (), fun _ => Except.ok (),
       Except.ok (), Except.ok (), Except.ok ()⟩
      ⟨none, none, none, none, some "x;x**2", true⟩ =
      Except.ok ⟨["警告: 3D 绘图仅支持单个表达式，将忽略 --3d 选项"], ["x", "x**2"],
        PlotOutcome.multi2d⟩ := by
  have h := (claim9_amended
    ⟨Except.ok (), Except.ok (), Except.ok (), fun _ => Except.ok (),
     Except.ok (), Except.ok (), Except.ok ()⟩
    ⟨none, none, none, none, some "x;x**2", true⟩ "x;x**2"
    rfl rfl rfl rfl (by decide) rfl (fun _ => rfl) rfl rfl).1
    (by with_unfolding_all decide)
  rw [h]
  with_unfolding_all rfl

/-- C10: with no variable supplied and an expression with no free symbols,
derivative, integral, taylor_series, critical_points and inflection_points
all raise IndexError from indexing the empty free symbol list, while the
guard in main picks the symbol x instead, so the guarded call returns
normally. -/
theorem claim10_empty_symbols {E V : Type} (cas : CAS E V) (e : E)
    (h : cas.freeSymbols e = []) :
    derivative cas e none = Except.error ⟨"IndexError"⟩ ∧
    integral cas e none = Except.error ⟨"IndexError"⟩ ∧
    taylor_series cas e 0 6 none = Except.error ⟨"IndexError"⟩ ∧
    critical_points cas e none = Except.error ⟨"IndexError"⟩ ∧
    inflection_points cas e none = Except.error ⟨"IndexError"⟩ ∧
    mainVarChoice (cas.freeSymbols e) = "x" ∧
    derivative cas e (some (mainVarChoice (cas.freeSymbols e))) =
      Except.ok (cas.diff e "x") := by
  refine ⟨?_, ?_, ?_, ?_, ?_, ?_, ?_⟩ <;>
    simp [derivative, integral, taylor_series, critical_points, inflection_points,
      resolveVar, h, mainVarChoice, Bind.bind, Except.bind, pure, Except.pure]

/-- Witness for C10 at the constant polynomial five, which has no free
symbols. -/
theorem claim10_empty_symbols_witness :
    polyCAS.freeSymbols (MExpr.poly [5]) = [] ∧
    derivative polyCAS (MExpr.poly [5]) none = Except.error ⟨"IndexError"⟩ ∧
    derivative polyCAS (MExpr.poly [5])
        (some (mainVarChoice (polyCAS.freeSymbols (MExpr.poly [5])))) =
      Except.ok (polyCAS.diff (MExpr.poly [5]) "x") :=
  ⟨by with_unfolding_all rfl,
   (claim10_empty_symbols polyCAS (MExpr.poly [5]) (by with_unfolding_all rfl)).1,
   (claim10_empty_symbols polyCAS (MExpr.poly [5]) (by with_unfolding_all rfl)).2.2.2.2.2.2⟩

end Mathviz
